import Mathlib

/-!
Shallow embedding of the Boundary Interpretation Engine
(repository `signalprism/execution-boundary-interpretation`).

The embedding covers:
* `src/src/gate-run2.js` — `runGate`, `minimalIntentValidate`,
  `actionClassMatches`, `pickDominant`, `authIndex`, `authGreater`;
* `src/action/src/diff.js` — `computeDiffSummary` (the two `git diff`
  invocations are abstracted as their raw output strings);
* `glob.js` — `matchesAnyPath`, `matchesAnyExtension` (the compiled
  regular expression is embedded as a direct recursive matcher with the
  same language: `**` matches any characters, `*` any characters except
  `/`, `?` one character except `/`, full-anchored);
* `src/src/io.js` — file reads/writes are abstracted: parsed documents
  are inputs, `fileExists` is the boolean `lockExists` input, and
  `writeJson` is modelled by the returned `Decision` (the source writes
  exactly the record it returns, once, on every return path).

JavaScript semantics that matter here and are modelled explicitly:
* absent / non-matching-type JSON fields are `Option.none`;
* `x || y` fallbacks on strings treat `""` as falsy;
* `n > undefined` is `false` (NaN comparison);
* template interpolation of `undefined` prints `"undefined"`;
* `emitFail` closes over the `const dominant` / `let required` /
  `const declared` bindings of `runGate`; calling it before those
  initializers run (the disallow and allow-path short-circuits) hits
  the temporal dead zone and throws a `ReferenceError`, modelled as
  `Except.error (JsError.referenceError "dominant")`.
-/

namespace ExecutionBoundary

/-- ASCII lowering of one character, as `String.prototype.toLowerCase`
behaves on the ASCII range used by the program. -/
def jsCharToLower (c : Char) : Char :=
  if 65 ≤ c.toNat ∧ c.toNat ≤ 90 then Char.ofNat (c.toNat + 32) else c

/-- `String.prototype.toLowerCase` restricted to ASCII. -/
def jsToLower (s : String) : String :=
  String.mk (s.toList.map jsCharToLower)

/-- `String.prototype.trim`: strip leading and trailing whitespace. -/
def jsTrim (s : String) : String :=
  String.mk (((s.toList.dropWhile Char.isWhitespace).reverse.dropWhile
    Char.isWhitespace).reverse)

/-- `listStartsWith s pat`: does the character list `s` start with `pat`? -/
def listStartsWith : List Char → List Char → Bool
  | _, [] => true
  | [], _ :: _ => false
  | c :: s, p :: ps => p = c && listStartsWith s ps

/-- `String.prototype.startsWith`. -/
def jsStartsWith (s pat : String) : Bool :=
  listStartsWith s.toList pat.toList

/-- Accumulator loop for `splitOnChar`. -/
def splitOnCharAux (sep : Char) : List Char → List Char → List String
  | [], acc => [String.mk acc.reverse]
  | c :: rest, acc =>
      if c = sep then String.mk acc.reverse :: splitOnCharAux sep rest []
      else splitOnCharAux sep rest (c :: acc)

/-- `String.prototype.split` with a single-character separator: keeps
empty fields, `"" ↦ [""]`. -/
def splitOnChar (sep : Char) (s : String) : List String :=
  splitOnCharAux sep s.toList []

/-- `normalizeSlashes` from `io.js` / `glob.js`: replace every backslash
with a forward slash. -/
def normalizeSlashes (p : String) : String :=
  String.mk (p.toList.map (fun c => if c = '\\' then '/' else c))

/-- Matcher for the anchored regular expression produced by
`globToRegExp`: `**` became `.*`, `*` became a slash-free run, `?` a
single slash-free character, every other character a literal. -/
def globMatchChars (g s : List Char) : Bool :=
  match g, s with
  | [], [] => true
  | [], _ :: _ => false
  | '*' :: '*' :: g, s =>
      globMatchChars g s ||
        (match s with
         | [] => false
         | _ :: s2 => globMatchChars ('*' :: '*' :: g) s2)
  | '*' :: g, s =>
      globMatchChars g s ||
        (match s with
         | [] => false
         | c :: s2 => if c = '/' then false else globMatchChars ('*' :: g) s2)
  | '?' :: g, s =>
      (match s with
       | [] => false
       | c :: s2 => if c = '/' then false else globMatchChars g s2)
  | c :: g, s =>
      (match s with
       | [] => false
       | c2 :: s2 => c = c2 && globMatchChars g s2)
termination_by (s.length, g.length)

/-- One glob against one normalized path; the glob itself is
slash-normalized first, as `globToRegExp` does. -/
def globMatch (glob path : String) : Bool :=
  globMatchChars (normalizeSlashes glob).toList path.toList

/-- `matchesAnyPath` from `glob.js`. -/
def matchesAnyPath (filePath : String) (globs : List String) : Bool :=
  if globs.isEmpty then false
  else globs.any (fun g => globMatch g (normalizeSlashes filePath))

/-- Suffix of a character list starting at its last `'.'`, if any. -/
def extFrom : List Char → Option (List Char)
  | [] => none
  | c :: rest =>
      match extFrom rest with
      | some e => some e
      | none => if c = '.' then some (c :: rest) else none

/-- `getExt` from `glob.js`: lowercased substring from the last `'.'`
onward, `""` when there is no dot. -/
def getExt (p : String) : String :=
  match extFrom p.toList with
  | some e => jsToLower (String.mk e)
  | none => ""

/-- `matchesAnyExtension` from `glob.js`. -/
def matchesAnyExtension (filePath : String) (exts : List String) : Bool :=
  if exts.isEmpty then false
  else (exts.map jsToLower).contains (getExt filePath)

/-- One row of the diff: a touched path with its `git diff --name-status`
status letter (a rename is stored with status `"R"`). -/
structure ChangeRecord where
  path : String
  status : String
deriving Repr, DecidableEq

/-- The structured diff summary produced by `computeDiffSummary`.
`runGate` consumes a value of this shape. -/
structure DiffSummary where
  changed_paths : List ChangeRecord
  files_added : Nat
  files_modified : Nat
  files_deleted : Nat
  total_loc_added : Int
  total_loc_deleted : Int
  new_top_level_dirs : Nat
deriving Repr, DecidableEq

/-- `line.split("\t").filter(Boolean)` from `diff.js`. -/
def parseLine (line : String) : List String :=
  (splitOnChar '\t' line).filter (· ≠ "")

/-- One iteration of the `--name-status` loop of `computeDiffSummary`:
threads (records, files_added, files_modified, files_deleted). -/
def nameStatusStep (st : List ChangeRecord × Nat × Nat × Nat) (line : String) :
    List ChangeRecord × Nat × Nat × Nat :=
  let parts := parseLine line
  let status := parts.getD 0 ""
  if jsStartsWith status "R" then
    let newPath := parts.getD 2 ""
    (st.1 ++ [⟨normalizeSlashes newPath, "R"⟩], st.2.1, st.2.2.1 + 1, st.2.2.2)
  else
    let p := parts.getD 1 ""
    (st.1 ++ [⟨normalizeSlashes p, status⟩],
     (if status = "A" then st.2.1 + 1 else st.2.1),
     (if status = "A" then st.2.2.1
      else if status = "M" then st.2.2.1 + 1
      else if status = "D" then st.2.2.1
      else st.2.2.1 + 1),
     (if status = "A" ∨ status = "M" then st.2.2.2
      else if status = "D" then st.2.2.2 + 1
      else st.2.2.2))

/-- `parseInt(s, 10)` with `NaN` collapsed to `0` (the `|| 0` at the use
site): optional sign, then leading decimal digits. -/
def parseIntJs (s : String) : Int :=
  let cs := s.toList.dropWhile Char.isWhitespace
  let signed : Bool × List Char :=
    match cs with
    | '-' :: t => (true, t)
    | '+' :: t => (false, t)
    | _ => (false, cs)
  let digits := signed.2.takeWhile Char.isDigit
  if digits = [] then 0
  else (if signed.1 then -1 else 1) *
    (digits.foldl (fun n c => n * 10 + ((c.toNat : Int) - 48)) 0)

/-- One iteration of the `--numstat` loop of `computeDiffSummary`:
threads (total_loc_added, total_loc_deleted). A `-` field (binary-file
marker) or empty field contributes nothing. -/
def numstatStep (st : Int × Int) (line : String) : Int × Int :=
  let parts := splitOnChar '\t' line
  let a := parts.getD 0 ""
  let d := parts.getD 1 ""
  ((if a ≠ "" ∧ a ≠ "-" then st.1 + parseIntJs a else st.1),
   (if d ≠ "" ∧ d ≠ "-" then st.2 + parseIntJs d else st.2))

/-- The `new Set()` of first path segments over the records whose status
is exactly `"A"`, skipping an empty first segment, as in `diff.js`. -/
def newTopLevelDirsOf (records : List ChangeRecord) : Nat :=
  ((records.filterMap (fun cp =>
      if cp.status = "A" then
        let seg := (splitOnChar '/' cp.path).headD ""
        if seg ≠ "" then some seg else none
      else none)).dedup).length

/-- `computeDiffSummary` from `diff.js`.  The base-ref resolution, the
best-effort fetch, and the two `git diff` invocations are external: the
function is embedded over the raw `--name-status` and `--numstat` output
strings they produce. -/
def computeDiffSummary (nameStatus numstat : String) : DiffSummary :=
  let lines := (splitOnChar '\n' nameStatus).filter (· ≠ "")
  let st := lines.foldl nameStatusStep ([], 0, 0, 0)
  let numLines := (splitOnChar '\n' numstat).filter (· ≠ "")
  let loc := numLines.foldl numstatStep (0, 0)
  { changed_paths := st.1
    files_added := st.2.1
    files_modified := st.2.2.1
    files_deleted := st.2.2.2
    total_loc_added := loc.1
    total_loc_deleted := loc.2
    new_top_level_dirs := newTopLevelDirsOf st.1 }

/-- The fixed authority scale, in declaration order. -/
def AUTH_ORDER : List String := ["low", "medium", "high", "critical"]

/-- `Array.prototype.indexOf`: position of the first occurrence, `-1`
when absent. -/
def indexOfList (target : String) : List String → Int
  | [] => -1
  | s :: rest =>
      if s = target then 0
      else
        let r := indexOfList target rest
        if r = -1 then -1 else r + 1

/-- `authIndex` from `gate-run2.js`: ordinal of a (lowercased) authority
string on `AUTH_ORDER`, `-1` for anything unknown. -/
def authIndex (a : String) : Int :=
  indexOfList (jsToLower a) AUTH_ORDER

/-- `authGreater` from `gate-run2.js`. -/
def authGreater (required declared : String) : Bool :=
  decide (authIndex required > authIndex declared)

/-- The `heuristics` block of a registry match rule; `none` marks an
absent or non-numeric field (`typeof h.x === "number"` fails). -/
structure Heuristics where
  files_added_gte : Option Int
  total_loc_added_gte : Option Int
  new_top_level_dirs_gte : Option Int
deriving Repr, DecidableEq

/-- The `match` block of a registry entry; `none` in a list field marks
an absent or non-array value (`Array.isArray` fails). -/
structure MatchRule where
  any_paths : Option (List String)
  any_extensions : Option (List String)
  heuristics : Option Heuristics
deriving Repr, DecidableEq

/-- One action-class registry entry. -/
structure ActionClassDef where
  «match» : Option MatchRule
  min_authority : Option String
deriving Repr, DecidableEq

/-- The three bootstrap caps; `none` marks an absent or non-number
field. -/
structure Caps where
  max_files_added : Option Int
  max_total_loc_added : Option Int
  max_new_top_level_dirs : Option Int
deriving Repr, DecidableEq

/-- The `bootstrap_scope` block of a declaration. -/
structure BootstrapScope where
  allowed_paths : Option (List String)
  allowed_action_classes : Option (List String)
  caps : Option Caps
deriving Repr, DecidableEq

/-- The optional `disallow` block of a declaration. -/
structure Disallow where
  path_globs : Option (List String)
  file_extensions : Option (List String)
deriving Repr, DecidableEq

/-- The parsed declaration document (`INTENT.json`).  Each field is
`none` when absent or of the wrong JSON type for its use site. -/
structure IntentDoc where
  mode : Option String
  intent : Option String
  declared_authority : Option String
  bootstrap_scope : Option BootstrapScope
  allowed_action_classes : Option (List String)
  allowed_paths : Option (List String)
  disallow : Option Disallow
deriving Repr, DecidableEq

/-- The parsed action-surface registry.  `action_classes` is kept as an
ordered association list: JavaScript object insertion order (which
`Object.entries` reproduces, and which js-yaml preserves for these
non-numeric keys) carries the tie-break semantics. -/
structure Registry where
  action_classes : Option (List (String × ActionClassDef))
deriving Repr, DecidableEq

/-- `minimalIntentValidate` from `gate-run2.js`: the ordered list of
structural error codes, empty when the declaration is valid. -/
def minimalIntentValidate (intent : IntentDoc) : List String :=
  let mode := intent.mode.getD ""
  let declared := jsToLower (intent.declared_authority.getD "")
  (if mode ∈ ["bootstrap", "normal"] then [] else ["invalid:mode"]) ++
  (if (jsTrim (intent.intent.getD "")).length < 3 then ["invalid:intent"] else []) ++
  (if AUTH_ORDER.contains declared then [] else ["invalid:declared_authority"]) ++
  (if mode = "bootstrap" then
    match intent.bootstrap_scope with
    | none => ["bootstrap_requires:bootstrap_scope"]
    | some bs =>
        (if bs.allowed_paths = none then
          ["bootstrap_requires:bootstrap_scope.allowed_paths"] else []) ++
        (if bs.allowed_action_classes = none then
          ["bootstrap_requires:bootstrap_scope.allowed_action_classes"] else []) ++
        (match bs.caps with
         | none => ["bootstrap_requires:bootstrap_scope.caps"]
         | some caps =>
             (if caps.max_files_added = none then
               ["bootstrap_caps_requires:max_files_added"] else []) ++
             (if caps.max_total_loc_added = none then
               ["bootstrap_caps_requires:max_total_loc_added"] else []) ++
             (if caps.max_new_top_level_dirs = none then
               ["bootstrap_caps_requires:max_new_top_level_dirs"] else []))
   else [])

/-- The heuristic part of `actionClassMatches`: every threshold that is
present must be met (the loop returns `false` at the first unmet one,
`true` otherwise — also when no threshold field is present). -/
def heuristicsPass (h : Heuristics) (diff : DiffSummary) : Bool :=
  (match h.files_added_gte with
   | some g => decide ((diff.files_added : Int) ≥ g)
   | none => true) &&
  (match h.total_loc_added_gte with
   | some g => decide (diff.total_loc_added ≥ g)
   | none => true) &&
  (match h.new_top_level_dirs_gte with
   | some g => decide ((diff.new_top_level_dirs : Int) ≥ g)
   | none => true)

/-- `actionClassMatches` from `gate-run2.js`: path rules and extension
rules are existential over the changed paths; the heuristics block,
when present, matches on its own. -/
def actionClassMatches (d : ActionClassDef) (diff : DiffSummary) : Bool :=
  let m := d.«match».getD ⟨none, none, none⟩
  (match m.any_paths with
   | some globs => diff.changed_paths.any (fun p => matchesAnyPath p.path globs)
   | none => false) ||
  (match m.any_extensions with
   | some exts => diff.changed_paths.any (fun p => matchesAnyExtension p.path exts)
   | none => false) ||
  (match m.heuristics with
   | some h => heuristicsPass h diff
   | none => false)

/-- `classesById[id]`: object lookup on the registry entries (keys of a
JavaScript object are unique; the first binding wins). -/
def classLookup (classesById : List (String × ActionClassDef)) (id : String) :
    Option ActionClassDef :=
  (classesById.find? (fun kv => kv.1 = id)).map Prod.snd

/-- `pickDominant` from `gate-run2.js`: fold over the matched ids,
replacing the candidate only on a strictly greater `min_authority`;
ids without a registry entry are skipped (`continue`). -/
def pickDominant (matchedIds : List String)
    (classesById : List (String × ActionClassDef)) : Option String :=
  matchedIds.foldl
    (fun dom id =>
      match classLookup classesById id, dom.bind (classLookup classesById) with
      | some a, some b =>
          if authGreater (a.min_authority.getD "") (b.min_authority.getD "")
          then some id else dom
      | _, _ => dom)
    matchedIds.head?

/-- Step 3 of `runGate`: the ids of every matching registry entry, in
registry order, defaulting to `["code_change"]` when nothing matched. -/
def classifyMatched (classesById : List (String × ActionClassDef))
    (diff : DiffSummary) : List String :=
  let matched := (classesById.filter (fun kv => actionClassMatches kv.2 diff)).map Prod.fst
  if matched = [] then ["code_change"] else matched

/-- Line 123 of `gate-run2.js`:
`(classesById[dominant] && classesById[dominant].min_authority) || "medium"`
(an absent entry, an absent `min_authority`, or the empty string all
fall back to `"medium"`). -/
def baseRequired (classesById : List (String × ActionClassDef))
    (dominant : Option String) : String :=
  match dominant.bind (classLookup classesById) with
  | some d =>
      match d.min_authority with
      | some r => if r = "" then "medium" else r
      | none => "medium"
  | none => "medium"

/-- Lines 122–128 of `gate-run2.js`: the registry-resolved authority,
floored at `"high"` in bootstrap mode. -/
def requiredAuthority (mode : Option String)
    (classesById : List (String × ActionClassDef))
    (dominant : Option String) : String :=
  let required := baseRequired classesById dominant
  if mode = some "bootstrap" ∧ authIndex required < authIndex "high"
  then "high" else required

/-- `n > m` where `m` may be `undefined`: a NaN comparison is `false`. -/
def jsGtNum (n : Int) (m : Option Int) : Bool :=
  match m with
  | some m => decide (n > m)
  | none => false

/-- `list.includes(x)` where `x` may be `undefined`. -/
def jsIncludesOpt (l : List String) (x : Option String) : Bool :=
  match x with
  | some s => l.contains s
  | none => false

/-- Template interpolation of a possibly-`undefined` string. -/
def jsStr (x : Option String) : String :=
  x.getD "undefined"

/-- `s || null` on a string: the empty string collapses to `null`. -/
def jsOrNull (s : String) : Option String :=
  if s = "" then none else some s

/-- `s || null` on a possibly-`undefined` string. -/
def jsOrNullOpt (s : Option String) : Option String :=
  match s with
  | some s => jsOrNull s
  | none => none

/-- The `diff_summary` snapshot embedded in a Decision (the `summarize`
helper of `runGate`). -/
structure SummarizedDiff where
  files_added : Nat
  files_modified : Nat
  files_deleted : Nat
  total_loc_added : Int
  total_loc_deleted : Int
  new_top_level_dirs : Nat
deriving Repr, DecidableEq

/-- `summarize` from `runGate`. -/
def summarize (d : DiffSummary) : SummarizedDiff :=
  { files_added := d.files_added
    files_modified := d.files_modified
    files_deleted := d.files_deleted
    total_loc_added := d.total_loc_added
    total_loc_deleted := d.total_loc_deleted
    new_top_level_dirs := d.new_top_level_dirs }

/-- The Decision record (`meaning.json`): the object `runGate` writes to
the output path and returns. -/
structure Decision where
  run : String
  mode : Option String
  dominant_action_class : Option String
  required_authority : Option String
  declared_authority : Option String
  decision : String
  reasons : List String
  diff_summary : Option SummarizedDiff
deriving Repr, DecidableEq

/-- A thrown JavaScript error: the run aborts and nothing is written. -/
inductive JsError where
  | referenceError (name : String)
  | typeError (name : String)
deriving Repr, DecidableEq

/-- Step 1 of `runGate`: the `disallowed_path:`/`disallowed_extension:`
reasons, in the order the two loops push them. -/
def disallowReasons (intent : IntentDoc) (diff : DiffSummary) : List String :=
  let disallow := intent.disallow.getD ⟨none, none⟩
  (match disallow.path_globs with
   | some globs =>
       diff.changed_paths.filterMap (fun p =>
         if matchesAnyPath p.path globs
         then some ("disallowed_path:" ++ p.path) else none)
   | none => []) ++
  (match disallow.file_extensions with
   | some exts =>
       diff.changed_paths.filterMap (fun p =>
         if matchesAnyExtension p.path exts
         then some ("disallowed_extension:" ++ p.path) else none)
   | none => [])

/-- Lines 103–105 of `runGate`: the allow-path list.  In bootstrap mode
the code dereferences `intent.bootstrap_scope` unconditionally, which
throws when the scope is absent (unreachable after validation). -/
def resolveAllowPaths (intent : IntentDoc) : Except JsError (Option (List String)) :=
  if intent.mode = some "bootstrap" then
    match intent.bootstrap_scope with
    | none => .error (.typeError "bootstrap_scope")
    | some bs => .ok bs.allowed_paths
  else
    .ok intent.allowed_paths

/-- Step 2 of `runGate`: paths outside a present, non-empty allowlist. -/
def allowlistReasons (allowPaths : Option (List String)) (diff : DiffSummary) :
    List String :=
  match allowPaths with
  | some l =>
      if l ≠ [] then
        diff.changed_paths.filterMap (fun p =>
          if matchesAnyPath p.path l then none
          else some ("run1_path_outside_allowlist:" ++ p.path))
      else []
  | none => []

/-- Lines 153–155 of `runGate`: the three cap checks, each a strict
`>` against the cap (a missing cap value compares false). -/
def capReasons (caps : Caps) (diff : DiffSummary) : List String :=
  (if jsGtNum (diff.files_added : Int) caps.max_files_added
   then ["bootstrap_cap_exceeded:max_files_added"] else []) ++
  (if jsGtNum diff.total_loc_added caps.max_total_loc_added
   then ["bootstrap_cap_exceeded:max_total_loc_added"] else []) ++
  (if jsGtNum (diff.new_top_level_dirs : Int) caps.max_new_top_level_dirs
   then ["bootstrap_cap_exceeded:max_new_top_level_dirs"] else [])

/-- Step 5 of `runGate`: the mode-specific constraint reasons.  The
bootstrap branch dereferences `bs.caps` unconditionally after pushing
the lock and class reasons (a `TypeError` there is unreachable after
validation and discards the pushed reasons, as a thrown error does). -/
def modeReasons (intent : IntentDoc) (dominant : Option String)
    (lockExists : Bool) (diff : DiffSummary) : Except JsError (List String) :=
  if intent.mode = some "normal" then
    .ok
      ((if dominant = some "new_codebase"
        then ["normal_mode_forbids_new_codebase"] else []) ++
       (match intent.allowed_action_classes with
        | some l =>
            if l ≠ [] ∧ ¬ jsIncludesOpt l dominant
            then ["action_class_not_allowed:" ++ jsStr dominant] else []
        | none => []))
  else
    match intent.bootstrap_scope with
    | none => .error (.typeError "bootstrap_scope")
    | some bs =>
      let rs :=
        (if lockExists then ["bootstrap_forbidden:bootstrap_lock_exists"] else []) ++
        (match bs.allowed_action_classes with
         | some l =>
             if l ≠ [] ∧ ¬ jsIncludesOpt l dominant
             then ["bootstrap_action_class_not_allowed:" ++ jsStr dominant] else []
         | none => [])
      match bs.caps with
      | none => .error (.typeError "caps")
      | some caps => .ok (rs ++ capReasons caps diff)

/-- `runGate` from `gate-run2.js`.

Inputs: the parsed declaration, the parsed registry, the lock-existence
boolean (`fileExists(bootstrapLockPath)`), and the diff summary
(`computeDiffSummary()` reads git state, external to the gate).  The
returned Decision is exactly the record the source writes to the output
path — every non-throwing return path writes the record it returns.

The two early short-circuits (steps 1 and 2) call `emitFail`, which
reads the `const dominant` binding before its initializer on line 122
has run; under JavaScript temporal-dead-zone semantics this throws a
`ReferenceError`, so those paths abort without constructing or
persisting a Decision. -/
def runGate (intent : IntentDoc) (registry : Registry) (lockExists : Bool)
    (diff : DiffSummary) : Except JsError Decision :=
  let intentErrors := minimalIntentValidate intent
  if intentErrors ≠ [] then
    .ok { run := "2", mode := intent.mode, dominant_action_class := none,
          required_authority := none,
          declared_authority := intent.declared_authority,
          decision := "fail", reasons := intentErrors, diff_summary := none }
  else
    let reasons1 := disallowReasons intent diff
    if reasons1 ≠ [] then .error (.referenceError "dominant")
    else
      match resolveAllowPaths intent with
      | .error e => .error e
      | .ok allowPaths =>
        let reasons2 := allowlistReasons allowPaths diff
        if reasons2 ≠ [] then .error (.referenceError "dominant")
        else
          let classesById := registry.action_classes.getD []
          let matched := classifyMatched classesById diff
          let dominant := pickDominant matched classesById
          let required := requiredAuthority intent.mode classesById dominant
          let declared := jsToLower (intent.declared_authority.getD "undefined")
          let reasonsA :=
            if authGreater required declared
            then ["authority_exceeded:required=" ++ required ++
                  ",declared=" ++ declared]
            else []
          match modeReasons intent dominant lockExists diff with
          | .error e => .error e
          | .ok reasonsM =>
            let reasons := reasonsA ++ reasonsM
            if reasons ≠ [] then
              .ok { run := "2", mode := intent.mode,
                    dominant_action_class := jsOrNullOpt dominant,
                    required_authority := jsOrNull required,
                    declared_authority := some declared,
                    decision := "fail", reasons := reasons,
                    diff_summary := some (summarize diff) }
            else
              .ok { run := "2", mode := intent.mode,
                    dominant_action_class := dominant,
                    required_authority := some required,
                    declared_authority := some declared,
                    decision := "pass", reasons := [],
                    diff_summary := some (summarize diff) }

/-! Specification-side definitions, used to state the claims. -/

/-- Maximum of two authority strings on the `AUTH_ORDER` ordinal scale,
keeping the left argument on ties. -/
def authMax (a b : String) : String :=
  if authIndex b ≤ authIndex a then a else b

/-- A reason code of the `authority_exceeded:...` family. -/
def isAuthorityReason (s : String) : Bool :=
  jsStartsWith s "authority_exceeded:"

/-- The `min_authority` ordinal the gate associates to an id: the
ordinal of the looked-up entry's `min_authority` (with the same
`undefined → ""` coercion `authGreater` applies), `-1`-ish when the id
has no entry or no authority. -/
def mAuth (classesById : List (String × ActionClassDef)) (id : String) : Int :=
  authIndex (((classLookup classesById id).bind ActionClassDef.min_authority).getD "")

/-- The dominance rule as the specification words it: the earliest
matched identifier whose `min_authority` ordinal is greatest. -/
def firstDominant (classesById : List (String × ActionClassDef))
    (matched : List String) : Option String :=
  matched.find? (fun id =>
    matched.all (fun j => decide (mAuth classesById j ≤ mAuth classesById id)))

/-! Concrete fixtures for counterexamples and witnesses. -/

/-- A structurally valid normal-mode declaration whose `disallow` block
bans the `.txt` extension. -/
def c1Intent : IntentDoc :=
  { mode := some "normal", intent := some "Add pagination",
    declared_authority := some "high", bootstrap_scope := none,
    allowed_action_classes := none, allowed_paths := none,
    disallow := some ⟨none, some [".txt"]⟩ }

/-- A one-entry registry keyed by extension matching. -/
def c1Registry : Registry :=
  ⟨some [("code_change", ⟨some ⟨none, some [".js"], none⟩, some "low"⟩)]⟩

/-- A diff touching one `.txt` file. -/
def c1Diff : DiffSummary :=
  { changed_paths := [⟨"secret/key.txt", "M"⟩], files_added := 0,
    files_modified := 1, files_deleted := 0, total_loc_added := 3,
    total_loc_deleted := 0, new_top_level_dirs := 0 }

/-- A structurally valid bootstrap declaration whose
`allowed_action_classes` list is empty. -/
def c6Intent : IntentDoc :=
  { mode := some "bootstrap", intent := some "Bootstrap the repository",
    declared_authority := some "critical",
    bootstrap_scope := some ⟨some [], some [], some ⟨some 100, some 1000, some 10⟩⟩,
    allowed_action_classes := none, allowed_paths := none, disallow := none }

/-- A registry whose single entry matches any diff via a trivial
heuristic threshold. -/
def c6Registry : Registry :=
  ⟨some [("scaffold", ⟨some ⟨none, none, some ⟨some 0, none, none⟩⟩, some "high"⟩)]⟩

/-- A small diff within all the `c6Intent` caps. -/
def c6Diff : DiffSummary :=
  { changed_paths := [⟨"app/main.js", "A"⟩], files_added := 1,
    files_modified := 0, files_deleted := 0, total_loc_added := 50,
    total_loc_deleted := 0, new_top_level_dirs := 1 }

/-- A structurally valid bootstrap declaration carrying a `disallow`
extension ban. -/
def c7Intent : IntentDoc :=
  { mode := some "bootstrap", intent := some "Bootstrap the repository",
    declared_authority := some "critical",
    bootstrap_scope := some ⟨some [], some ["scaffold"], some ⟨some 100, some 1000, some 10⟩⟩,
    allowed_action_classes := none, allowed_paths := none,
    disallow := some ⟨none, some [".md"]⟩ }

/-- A diff hitting the `c7Intent` disallow list. -/
def c7Diff : DiffSummary :=
  { changed_paths := [⟨"README.md", "A"⟩], files_added := 1,
    files_modified := 0, files_deleted := 0, total_loc_added := 10,
    total_loc_deleted := 0, new_top_level_dirs := 0 }

/-- Normal-mode declaration declaring less authority than required. -/
def w2Intent : IntentDoc :=
  { mode := some "normal", intent := some "Add pagination to API",
    declared_authority := some "low", bootstrap_scope := none,
    allowed_action_classes := none, allowed_paths := none, disallow := none }

/-- Registry mapping workflow files to `min_authority: high`. -/
def w2Registry : Registry :=
  ⟨some [("workflow_change", ⟨some ⟨none, some [".yml"], none⟩, some "high"⟩)]⟩

/-- A diff touching one workflow file. -/
def w2Diff : DiffSummary :=
  { changed_paths := [⟨"ci/build.yml", "M"⟩], files_added := 0,
    files_modified := 1, files_deleted := 0, total_loc_added := 4,
    total_loc_deleted := 1, new_top_level_dirs := 0 }

/-- One-entry registry with a low-authority class, for the bootstrap
floor witness. -/
def w3Classes : List (String × ActionClassDef) :=
  [("docs_change", ⟨some ⟨none, some [".md"], none⟩, some "low"⟩)]

/-- Caps fixture sitting exactly at the witness boundaries. -/
def w4Caps : Caps := ⟨some 5, some 100, some 2⟩

/-- Diff meeting every `w4Caps` cap exactly. -/
def w4DiffAt : DiffSummary :=
  { changed_paths := [], files_added := 5, files_modified := 0,
    files_deleted := 0, total_loc_added := 100, total_loc_deleted := 0,
    new_top_level_dirs := 2 }

/-- Diff exceeding every `w4Caps` cap by one. -/
def w4DiffOver : DiffSummary :=
  { changed_paths := [], files_added := 6, files_modified := 0,
    files_deleted := 0, total_loc_added := 101, total_loc_deleted := 0,
    new_top_level_dirs := 3 }

/-- Registry with two entries of equal `min_authority`, both matching
any diff, for the dominance tie witness. -/
def w5Classes : List (String × ActionClassDef) :=
  [("alpha_change", ⟨some ⟨none, none, some ⟨some 0, none, none⟩⟩, some "medium"⟩),
   ("beta_change", ⟨some ⟨none, none, some ⟨some 0, none, none⟩⟩, some "medium"⟩)]

/-- A minimal diff for the tie witness. -/
def w5Diff : DiffSummary :=
  { changed_paths := [⟨"lib/a.js", "M"⟩], files_added := 0,
    files_modified := 1, files_deleted := 0, total_loc_added := 1,
    total_loc_deleted := 0, new_top_level_dirs := 0 }

/-- Bootstrap declaration whose scope allows only `docs_change`. -/
def w6Intent : IntentDoc :=
  { mode := some "bootstrap", intent := some "Bootstrap the repository",
    declared_authority := some "critical",
    bootstrap_scope := some ⟨some [], some ["docs_change"], some ⟨some 100, some 1000, some 10⟩⟩,
    allowed_action_classes := none, allowed_paths := none, disallow := none }

/-- A structurally valid bootstrap declaration with no disallow block,
for the lock-law witness. -/
def w7Intent : IntentDoc :=
  { mode := some "bootstrap", intent := some "Bootstrap the repository",
    declared_authority := some "critical",
    bootstrap_scope := some ⟨some [], some ["scaffold"], some ⟨some 100, some 1000, some 10⟩⟩,
    allowed_action_classes := none, allowed_paths := none, disallow := none }

/-- A structurally broken declaration: unknown mode, missing intent
text, unknown authority level. -/
def w8Intent : IntentDoc :=
  { mode := some "chaos", intent := some "x",
    declared_authority := some "ultra", bootstrap_scope := none,
    allowed_action_classes := none, allowed_paths := none, disallow := none }

/-! Helper lemmas. -/

theorem listStartsWith_append_of_le (pat : List Char) :
    ∀ (l d : List Char), pat.length ≤ l.length →
      listStartsWith (l ++ d) pat = listStartsWith l pat := by
  induction pat with
  | nil => intro l d _; cases l <;> simp [listStartsWith]
  | cons p ps ih =>
      intro l d h
      cases l with
      | nil => simp at h
      | cons c cs =>
          simp only [List.cons_append, listStartsWith, List.append_eq]
          rw [ih cs d (by simpa using h)]

theorem find?_congr_mem {α : Type} (p q : α → Bool) :
    ∀ l : List α, (∀ x ∈ l, p x = q x) → l.find? p = l.find? q
  | [], _ => rfl
  | x :: t, h => by
      simp only [List.find?]
      rw [h x (by simp)]
      cases hq : q x with
      | true => rfl
      | false => exact find?_congr_mem p q t (fun y hy => h y (by simp [hy]))

theorem mem_if_singleton {s x : String} {c : Prop} [Decidable c] :
    (s ∈ (if c then [x] else ([] : List String))) ↔ c ∧ s = x := by
  split <;> simp_all

theorem isAuthorityReason_prepend (a d : String)
    (h : ("authority_exceeded:".data).length ≤ a.data.length) :
    isAuthorityReason (a ++ d) = isAuthorityReason a := by
  unfold isAuthorityReason jsStartsWith
  show listStartsWith (a ++ d).data _ = listStartsWith a.data _
  rw [String.data_append]
  exact listStartsWith_append_of_le _ _ _ h

theorem isAuthorityReason_action_class (s : String) :
    isAuthorityReason ("action_class_not_allowed:" ++ s) = false := by
  rw [isAuthorityReason_prepend _ _ (by decide)]
  decide

theorem isAuthorityReason_bootstrap_class (s : String) :
    isAuthorityReason ("bootstrap_action_class_not_allowed:" ++ s) = false := by
  rw [isAuthorityReason_prepend _ _ (by decide)]
  decide

theorem isAuthorityReason_auth_entry (r dd : String) :
    isAuthorityReason ("authority_exceeded:required=" ++ r ++ ",declared=" ++ dd) = true := by
  have hpat : ("authority_exceeded:".data).length = 19 := rfl
  have hA : ("authority_exceeded:required=".data).length = 28 := rfl
  have hB : (",declared=".data).length = 10 := rfl
  have h1 : (("authority_exceeded:required=" ++ r).data).length = 28 + r.data.length := by
    rw [String.data_append, List.length_append, hA]
  have h2 : ((("authority_exceeded:required=" ++ r) ++ ",declared=").data).length
      = 38 + r.data.length := by
    rw [String.data_append, List.length_append, h1, hB]
    omega
  rw [isAuthorityReason_prepend (("authority_exceeded:required=" ++ r) ++ ",declared=") dd
      (by rw [hpat, h2]; omega)]
  rw [isAuthorityReason_prepend ("authority_exceeded:required=" ++ r) ",declared="
      (by rw [hpat, h1]; omega)]
  rw [isAuthorityReason_prepend "authority_exceeded:required=" r (by rw [hpat, hA]; omega)]
  decide

theorem modeReasons_no_auth (intent : IntentDoc) (dom : Option String)
    (lock : Bool) (diff : DiffSummary) (rs : List String)
    (h : modeReasons intent dom lock diff = .ok rs)
    (s : String) (hs : s ∈ rs) : isAuthorityReason s = false := by
  unfold modeReasons at h
  split at h
  · -- normal mode
    injection h with h
    subst h
    rcases hac : intent.allowed_action_classes with _ | l <;> rw [hac] at hs <;>
      simp only [List.mem_append, mem_if_singleton, List.not_mem_nil, or_false,
        false_or, List.append_nil] at hs
    · exact hs.2 ▸ (by decide)
    · rcases hs with ⟨-, rfl⟩ | ⟨-, rfl⟩
      · decide
      · exact isAuthorityReason_action_class _
  · -- bootstrap branch
    rcases hbs : intent.bootstrap_scope with _ | bs
    · simp [hbs] at h
    · simp only [hbs] at h
      rcases hcp : bs.caps with _ | caps
      · simp [hcp] at h
      · simp only [hcp, Except.ok.injEq] at h
        subst h
        rcases hl : bs.allowed_action_classes with _ | l <;> rw [hl] at hs <;>
          unfold capReasons at hs <;>
          simp only [List.mem_append, mem_if_singleton, List.not_mem_nil, or_false,
            false_or, List.append_nil] at hs
        · rcases hs with ⟨-, h⟩ | (⟨-, h⟩ | ⟨-, h⟩) | ⟨-, h⟩ <;> subst h <;> decide
        · rcases hs with (⟨-, h⟩ | ⟨-, h⟩) | (⟨-, h⟩ | ⟨-, h⟩) | ⟨-, h⟩ <;> subst h <;>
            first
            | decide
            | exact isAuthorityReason_bootstrap_class _

theorem validate_mode_cases (intent : IntentDoc)
    (hv : minimalIntentValidate intent = []) :
    intent.mode = some "bootstrap" ∨ intent.mode = some "normal" := by
  unfold minimalIntentValidate at hv
  simp only [List.append_eq_nil] at hv
  have h1 := hv.1.1.1
  split at h1
  · rename_i h
    rcases hmode : intent.mode with _ | m
    · rw [hmode] at h
      simp only [Option.getD_none, List.mem_cons, List.not_mem_nil, or_false] at h
      rcases h with h | h <;> exact absurd h (by decide)
    · rw [hmode] at h
      simp only [Option.getD_some, List.mem_cons, List.not_mem_nil, or_false] at h
      rcases h with h | h
      · exact Or.inl (by rw [h])
      · exact Or.inr (by rw [h])
  · simp at h1

theorem validate_bootstrap_shape (intent : IntentDoc)
    (hv : minimalIntentValidate intent = [])
    (hm : intent.mode = some "bootstrap") :
    ∃ bs caps, intent.bootstrap_scope = some bs ∧ bs.caps = some caps ∧
      (∃ l, bs.allowed_paths = some l) ∧ (∃ l, bs.allowed_action_classes = some l) := by
  unfold minimalIntentValidate at hv
  rw [hm] at hv
  simp only [Option.getD_some, reduceIte] at hv
  rcases hbs : intent.bootstrap_scope with _ | bs
  · simp [hbs] at hv
  · simp only [hbs] at hv
    rcases hcp : bs.caps with _ | caps
    · simp [hcp] at hv
    · simp only [hcp] at hv
      refine ⟨bs, caps, rfl, hcp, ?_, ?_⟩
      · rcases hap2 : bs.allowed_paths with _ | l
        · simp [hap2] at hv
        · exact ⟨l, rfl⟩
      · rcases hac : bs.allowed_action_classes with _ | l
        · simp [hac] at hv
        · exact ⟨l, rfl⟩

theorem resolveAllowPaths_ok (intent : IntentDoc)
    (hv : minimalIntentValidate intent = []) :
    ∃ ap, resolveAllowPaths intent = .ok ap := by
  unfold resolveAllowPaths
  by_cases hm : intent.mode = some "bootstrap"
  · obtain ⟨bs, caps, hbs, -, -, -⟩ := validate_bootstrap_shape intent hv hm
    rw [if_pos hm, hbs]
    exact ⟨bs.allowed_paths, rfl⟩
  · rw [if_neg hm]
    exact ⟨intent.allowed_paths, rfl⟩

theorem modeReasons_ok (intent : IntentDoc) (dom : Option String) (lock : Bool)
    (diff : DiffSummary) (hv : minimalIntentValidate intent = []) :
    ∃ rs, modeReasons intent dom lock diff = .ok rs := by
  unfold modeReasons
  by_cases hm : intent.mode = some "normal"
  · rw [if_pos hm]
    exact ⟨_, rfl⟩
  · rw [if_neg hm]
    rcases validate_mode_cases intent hv with hb | hn
    · obtain ⟨bs, caps, hbs, hcp, -, -⟩ := validate_bootstrap_shape intent hv hb
      simp only [hbs, hcp]
      exact ⟨_, rfl⟩
    · exact absurd hn hm


theorem runGate_pipeline (intent : IntentDoc) (registry : Registry) (lock : Bool)
    (diff : DiffSummary) (ap : Option (List String)) (rm : List String)
    (hv : minimalIntentValidate intent = [])
    (h1 : disallowReasons intent diff = [])
    (hap : resolveAllowPaths intent = .ok ap)
    (h2 : allowlistReasons ap diff = [])
    (hm : modeReasons intent
        (pickDominant (classifyMatched (registry.action_classes.getD []) diff)
          (registry.action_classes.getD [])) lock diff = .ok rm) :
    runGate intent registry lock diff =
      (if ((if authGreater
              (requiredAuthority intent.mode (registry.action_classes.getD [])
                (pickDominant (classifyMatched (registry.action_classes.getD []) diff)
                  (registry.action_classes.getD [])))
              (jsToLower (intent.declared_authority.getD "undefined"))
            then ["authority_exceeded:required=" ++
                  requiredAuthority intent.mode (registry.action_classes.getD [])
                    (pickDominant (classifyMatched (registry.action_classes.getD []) diff)
                      (registry.action_classes.getD [])) ++
                  ",declared=" ++ jsToLower (intent.declared_authority.getD "undefined")]
            else []) ++ rm) ≠ [] then
         Except.ok { run := "2", mode := intent.mode,
                     dominant_action_class := jsOrNullOpt
                       (pickDominant (classifyMatched (registry.action_classes.getD []) diff)
                         (registry.action_classes.getD [])),
                     required_authority := jsOrNull
                       (requiredAuthority intent.mode (registry.action_classes.getD [])
                         (pickDominant (classifyMatched (registry.action_classes.getD []) diff)
                           (registry.action_classes.getD []))),
                     declared_authority := some (jsToLower (intent.declared_authority.getD "undefined")),
                     decision := "fail",
                     reasons := ((if authGreater
                         (requiredAuthority intent.mode (registry.action_classes.getD [])
                           (pickDominant (classifyMatched (registry.action_classes.getD []) diff)
                             (registry.action_classes.getD [])))
                         (jsToLower (intent.declared_authority.getD "undefined"))
                       then ["authority_exceeded:required=" ++
                             requiredAuthority intent.mode (registry.action_classes.getD [])
                               (pickDominant (classifyMatched (registry.action_classes.getD []) diff)
                                 (registry.action_classes.getD [])) ++
                             ",declared=" ++ jsToLower (intent.declared_authority.getD "undefined")]
                       else []) ++ rm),
                     diff_summary := some (summarize diff) }
       else
         Except.ok { run := "2", mode := intent.mode,
                     dominant_action_class :=
                       pickDominant (classifyMatched (registry.action_classes.getD []) diff)
                         (registry.action_classes.getD []),
                     required_authority := some
                       (requiredAuthority intent.mode (registry.action_classes.getD [])
                         (pickDominant (classifyMatched (registry.action_classes.getD []) diff)
                           (registry.action_classes.getD []))),
                     declared_authority := some (jsToLower (intent.declared_authority.getD "undefined")),
                     decision := "pass", reasons := [],
                     diff_summary := some (summarize diff) }) := by
  unfold runGate
  simp only [hv, h1, hap, h2, hm, ne_eq, not_true_eq_false, not_false_eq_true, if_true,
    if_false, ite_true, ite_false]

theorem pickDominant_step_eq (c : List (String × ActionClassDef)) (d id : String)
    (hid : (classLookup c id).isSome = true) (hd : (classLookup c d).isSome = true) :
    (match classLookup c id, (some d).bind (classLookup c) with
     | some a, some b =>
         if authGreater (a.min_authority.getD "") (b.min_authority.getD "")
         then some id else some d
     | _, _ => some d) =
      if mAuth c d < mAuth c id then some id else some d := by
  obtain ⟨a, ha⟩ := Option.isSome_iff_exists.1 hid
  obtain ⟨b, hb⟩ := Option.isSome_iff_exists.1 hd
  simp only [Option.some_bind, ha, hb]
  unfold authGreater mAuth
  rw [ha, hb]
  simp only [Option.some_bind]
  by_cases hc : authIndex (b.min_authority.getD "") < authIndex (a.min_authority.getD "")
  · rw [if_pos (decide_eq_true hc), if_pos hc]
  · rw [if_neg (fun hq => hc (of_decide_eq_true hq)), if_neg hc]

theorem pickDominant_loop (c : List (String × ActionClassDef)) :
    ∀ (l : List String) (d : String),
      (∀ x ∈ l, (classLookup c x).isSome = true) →
      (classLookup c d).isSome = true →
      l.foldl
        (fun dom id =>
          match classLookup c id, dom.bind (classLookup c) with
          | some a, some b =>
              if authGreater (a.min_authority.getD "") (b.min_authority.getD "")
              then some id else dom
          | _, _ => dom)
        (some d) =
      (d :: l).find? (fun id => (d :: l).all (fun j => decide (mAuth c j ≤ mAuth c id)))
  | [], d, _, _ => by
      rw [List.foldl_nil, List.find?_cons_of_pos]
      simp
  | x :: t, d, hl, hd => by
      rw [List.foldl_cons]
      have hx : (classLookup c x).isSome = true := hl x (by simp)
      have ht : ∀ y ∈ t, (classLookup c y).isSome = true := fun y hy => hl y (by simp [hy])
      rw [pickDominant_step_eq c d x hx hd]
      by_cases hlt : mAuth c d < mAuth c x
      · rw [if_pos hlt, pickDominant_loop c t x ht hx]
        have hPd : ¬ (((d :: x :: t).all fun j => decide (mAuth c j ≤ mAuth c d)) = true) := by
          intro hall
          exact absurd (of_decide_eq_true ((List.all_eq_true.1 hall) x (by simp)))
            (not_le.2 hlt)
        rw [List.find?_cons_of_neg (p := fun id => (d :: x :: t).all
          fun j => decide (mAuth c j ≤ mAuth c id)) _ hPd]
        apply find?_congr_mem
        intro e he
        rcases hpx : ((x :: t).all fun j => decide (mAuth c j ≤ mAuth c e)) with _ | _
        · symm
          rw [List.all_cons, hpx, Bool.and_false]
        · have hge : mAuth c x ≤ mAuth c e :=
            of_decide_eq_true ((List.all_eq_true.1 hpx) x (by simp))
          have hqd : decide (mAuth c d ≤ mAuth c e) = true :=
            decide_eq_true (le_trans (le_of_lt hlt) hge)
          symm
          rw [List.all_cons, hqd, hpx, Bool.true_and]
      · rw [if_neg hlt]
        have hq : mAuth c x ≤ mAuth c d := not_lt.1 hlt
        rw [pickDominant_loop c t d ht hd]
        by_cases hPd : ((d :: t).all fun j => decide (mAuth c j ≤ mAuth c d)) = true
        · have hP : ((d :: x :: t).all fun j => decide (mAuth c j ≤ mAuth c d)) = true := by
            rw [List.all_eq_true]
            intro j hj
            simp only [List.mem_cons] at hj
            rcases hj with rfl | rfl | hj
            · exact decide_eq_true le_rfl
            · exact decide_eq_true hq
            · exact (List.all_eq_true.1 hPd) j (by simp [hj])
          rw [List.find?_cons_of_pos (p := fun id => (d :: x :: t).all
            fun j => decide (mAuth c j ≤ mAuth c id)) _ hP,
            List.find?_cons_of_pos (p := fun id => (d :: t).all
            fun j => decide (mAuth c j ≤ mAuth c id)) _ hPd]
        · have hPf : ¬ (((d :: x :: t).all fun j => decide (mAuth c j ≤ mAuth c d)) = true) := by
            intro hall
            apply hPd
            rw [List.all_eq_true]
            intro j hj
            apply (List.all_eq_true.1 hall) j
            simp only [List.mem_cons] at hj ⊢
            tauto
          have hPx : ¬ (((d :: x :: t).all fun j => decide (mAuth c j ≤ mAuth c x)) = true) := by
            intro hall
            apply hPd
            rw [List.all_eq_true]
            intro j hj
            have hjx : mAuth c j ≤ mAuth c x :=
              of_decide_eq_true ((List.all_eq_true.1 hall) j
                (by simp only [List.mem_cons] at hj ⊢; tauto))
            exact decide_eq_true (le_trans hjx hq)
          rw [List.find?_cons_of_neg (p := fun id => (d :: x :: t).all
            fun j => decide (mAuth c j ≤ mAuth c id)) _ hPf,
            List.find?_cons_of_neg (p := fun id => (d :: x :: t).all
            fun j => decide (mAuth c j ≤ mAuth c id)) _ hPx,
            List.find?_cons_of_neg (p := fun id => (d :: t).all
            fun j => decide (mAuth c j ≤ mAuth c id)) _ hPd]
          apply find?_congr_mem
          intro e he
          rcases hpd : ((d :: t).all fun j => decide (mAuth c j ≤ mAuth c e)) with _ | _
          · rcases hPe : ((d :: x :: t).all fun j => decide (mAuth c j ≤ mAuth c e)) with _ | _
            · rfl
            · exfalso
              have hcontra : ((d :: t).all fun j => decide (mAuth c j ≤ mAuth c e)) = true := by
                rw [List.all_eq_true]
                intro j hj
                apply (List.all_eq_true.1 hPe) j
                simp only [List.mem_cons] at hj ⊢
                tauto
              rw [hcontra] at hpd
              simp at hpd
          · symm
            rw [List.all_eq_true]
            intro j hj
            simp only [List.mem_cons] at hj
            rcases hj with rfl | rfl | hj
            · exact (List.all_eq_true.1 hpd) j (by simp)
            · exact decide_eq_true (le_trans hq
                (of_decide_eq_true ((List.all_eq_true.1 hpd) d (by simp))))
            · exact (List.all_eq_true.1 hpd) j (by simp [hj])

theorem pickDominant_single (c : List (String × ActionClassDef)) (id : String) :
    pickDominant [id] c = some id := by
  unfold pickDominant
  rw [List.foldl_cons, List.foldl_nil]
  cases hlk : classLookup c id with
  | none => simp [List.head?, hlk]
  | some a => simp [List.head?, hlk]

theorem classLookup_isSome_of_mem (c : List (String × ActionClassDef))
    (kv : String × ActionClassDef) (hkv : kv ∈ c) :
    (classLookup c kv.1).isSome = true := by
  unfold classLookup
  rw [Option.isSome_map']
  rw [List.find?_isSome]
  exact ⟨kv, hkv, by simp⟩

theorem pickDominant_eq_firstDominant (c : List (String × ActionClassDef))
    (diff : DiffSummary) :
    pickDominant (classifyMatched c diff) c = firstDominant c (classifyMatched c diff) := by
  by_cases hf : (c.filter (fun kv => actionClassMatches kv.2 diff)).map Prod.fst = []
  · have hm : classifyMatched c diff = ["code_change"] := by
      unfold classifyMatched
      rw [hf]
      rfl
    rw [hm, pickDominant_single]
    unfold firstDominant
    rw [List.find?_cons_of_pos]
    simp
  · have hm : classifyMatched c diff
        = (c.filter (fun kv => actionClassMatches kv.2 diff)).map Prod.fst := by
      unfold classifyMatched
      rw [if_neg hf]
    have hl : ∀ id ∈ classifyMatched c diff, (classLookup c id).isSome = true := by
      intro id hid
      rw [hm] at hid
      obtain ⟨kv, hkv, hfst⟩ := List.mem_map.1 hid
      have hmem : kv ∈ c := (List.mem_filter.1 hkv).1
      rw [← hfst]
      exact classLookup_isSome_of_mem c kv hmem
    obtain ⟨x, t, hxt⟩ := List.exists_cons_of_ne_nil (hm ▸ hf : classifyMatched c diff ≠ [])
    rw [hxt] at hl
    have hx : (classLookup c x).isSome = true := hl x (by simp)
    have ht : ∀ y ∈ t, (classLookup c y).isSome = true := fun y hy => hl y (by simp [hy])
    rw [hxt]
    unfold pickDominant firstDominant
    rw [List.foldl_cons]
    have hstep := pickDominant_step_eq c x x hx hx
    rw [show (x :: t).head? = some x from rfl]
    rw [hstep, if_neg (lt_irrefl _)]
    exact pickDominant_loop c t x ht hx

theorem classifyMatched_mem_iff (c : List (String × ActionClassDef))
    (diff : DiffSummary) (id : String) :
    id ∈ classifyMatched c diff ↔
      ((∃ d, (id, d) ∈ c ∧ actionClassMatches d diff = true) ∨
       (id = "code_change" ∧ ∀ kv ∈ c, actionClassMatches kv.2 diff = false)) := by
  unfold classifyMatched
  by_cases hf : (c.filter (fun kv => actionClassMatches kv.2 diff)).map Prod.fst = []
  · rw [if_pos hf]
    have hnone : ∀ kv ∈ c, actionClassMatches kv.2 diff = false := by
      intro kv hkv
      have := List.filter_eq_nil_iff.1 (List.map_eq_nil_iff.1 hf) kv hkv
      simpa using this
    constructor
    · intro hid
      simp only [List.mem_cons, List.not_mem_nil, or_false] at hid
      exact Or.inr ⟨hid, hnone⟩
    · rintro (⟨d, hd, hmt⟩ | ⟨rfl, -⟩)
      · exact absurd hmt (by rw [hnone (id, d) hd]; simp)
      · simp
  · rw [if_neg hf]
    constructor
    · intro hid
      obtain ⟨kv, hkv, hfst⟩ := List.mem_map.1 hid
      obtain ⟨hmem, hmt⟩ := List.mem_filter.1 hkv
      refine Or.inl ⟨kv.2, ?_, by simpa using hmt⟩
      rw [← hfst]
      exact hmem
    · rintro (⟨d, hd, hmt⟩ | ⟨rfl, hall⟩)
      · exact List.mem_map.2 ⟨(id, d), List.mem_filter.2 ⟨hd, by simpa using hmt⟩, rfl⟩
      · exfalso
        apply hf
        rw [List.map_eq_nil_iff, List.filter_eq_nil_iff]
        intro kv hkv
        rw [hall kv hkv]
        simp

theorem append_ne_of_take (pre s t : String)
    (h : t.data.take pre.data.length ≠ pre.data) : pre ++ s ≠ t := by
  intro he
  apply h
  rw [← he, String.data_append, List.take_left]

/-- C2: for every run that reaches the authority-comparison stage (valid
declaration, no disallow hits, no allow-path hits), the final Decision's
reasons contain exactly one `authority_exceeded:required=<r>,declared=<d>`
entry — with the actual required/declared pair — iff the required
authority's ordinal strictly exceeds the declared authority's ordinal, and
contain no such entry otherwise. -/
theorem c2_main (intent : IntentDoc) (registry : Registry)
    (lock : Bool) (diff : DiffSummary) (ap : Option (List String))
    (hv : minimalIntentValidate intent = [])
    (h1 : disallowReasons intent diff = [])
    (hap : resolveAllowPaths intent = .ok ap)
    (h2 : allowlistReasons ap diff = []) :
    ∃ dec, runGate intent registry lock diff = .ok dec ∧
      dec.reasons.filter isAuthorityReason =
        (if authIndex
              (requiredAuthority intent.mode (registry.action_classes.getD [])
                (pickDominant (classifyMatched (registry.action_classes.getD []) diff)
                  (registry.action_classes.getD []))) >
            authIndex (jsToLower (intent.declared_authority.getD "undefined"))
         then ["authority_exceeded:required=" ++
               requiredAuthority intent.mode (registry.action_classes.getD [])
                 (pickDominant (classifyMatched (registry.action_classes.getD []) diff)
                   (registry.action_classes.getD [])) ++
               ",declared=" ++ jsToLower (intent.declared_authority.getD "undefined")]
         else []) := by
  obtain ⟨rm, hm⟩ := modeReasons_ok intent
    (pickDominant (classifyMatched (registry.action_classes.getD []) diff)
      (registry.action_classes.getD [])) lock diff hv
  have hfrm : rm.filter isAuthorityReason = [] := by
    rw [List.filter_eq_nil_iff]
    intro s hs
    simp [modeReasons_no_auth intent _ lock diff rm hm s hs]
  rw [runGate_pipeline intent registry lock diff ap rm hv h1 hap h2 hm]
  rcases hA : authGreater
      (requiredAuthority intent.mode (registry.action_classes.getD [])
        (pickDominant (classifyMatched (registry.action_classes.getD []) diff)
          (registry.action_classes.getD [])))
      (jsToLower (intent.declared_authority.getD "undefined")) with _ | _
  · simp only [hA, Bool.false_eq_true, reduceIte, List.nil_append]
    rw [if_neg (of_decide_eq_false hA)]
    by_cases hrm : rm = []
    · subst hrm
      rw [if_neg (by simp)]
      exact ⟨_, rfl, by simp⟩
    · rw [if_pos hrm]
      refine ⟨_, rfl, ?_⟩
      exact hfrm
  · simp only [hA, reduceIte]
    rw [if_pos (of_decide_eq_true hA)]
    rw [if_pos (by simp)]
    refine ⟨_, rfl, ?_⟩
    show (_ ++ rm).filter isAuthorityReason = _
    rw [List.filter_append, hfrm, List.append_nil]
    simp [List.filter_cons, isAuthorityReason_auth_entry]

theorem mem_if_nil {s x : String} {c : Prop} [Decidable c] :
    (s ∈ (if c then ([] : List String) else [x])) ↔ ¬ c ∧ s = x := by
  split <;> simp_all

/-- C3: for every bootstrap-mode run, the required authority equals the
maximum of the dominant class's registry `min_authority` and `"high"`: a
sub-high authority is raised to exactly `"high"`, while `"high"` and
`"critical"` are left unchanged. -/
theorem c3_main (classesById : List (String × ActionClassDef))
    (id : String) (d : ActionClassDef) (a : String)
    (hlk : classLookup classesById id = some d)
    (ha : d.min_authority = some a) (hne : a ≠ "") :
    requiredAuthority (some "bootstrap") classesById (some id) = authMax a "high" ∧
    (authIndex a < authIndex "high" →
      requiredAuthority (some "bootstrap") classesById (some id) = "high") ∧
    ((a = "high" ∨ a = "critical") →
      requiredAuthority (some "bootstrap") classesById (some id) = a) := by
  have hbase : baseRequired classesById (some id) = a := by
    unfold baseRequired
    simp only [Option.some_bind, hlk, ha]
    rw [if_neg hne]
  have hmain : requiredAuthority (some "bootstrap") classesById (some id) = authMax a "high" := by
    unfold requiredAuthority authMax
    rw [hbase]
    by_cases hc : authIndex a < authIndex "high"
    · rw [if_pos ⟨rfl, hc⟩, if_neg (not_le.2 hc)]
    · rw [if_neg (fun hand => hc hand.2), if_pos (not_lt.1 hc)]
  refine ⟨hmain, ?_, ?_⟩
  · intro hlt
    rw [hmain]
    unfold authMax
    rw [if_neg (not_le.2 hlt)]
  · intro hcase
    rw [hmain]
    unfold authMax
    rcases hcase with rfl | rfl
    · rw [if_pos (by decide)]
    · rw [if_pos (by decide)]

/-- Witness for C3 at a registry entry with `min_authority: low`. -/
theorem c3_main_witness :
    classLookup w3Classes "docs_change" = some ⟨some ⟨none, some [".md"], none⟩, some "low"⟩ ∧
    requiredAuthority (some "bootstrap") w3Classes (some "docs_change") = authMax "low" "high" ∧
    requiredAuthority (some "bootstrap") w3Classes (some "docs_change") = "high" := by
  have h := c3_main w3Classes "docs_change" ⟨some ⟨none, some [".md"], none⟩, some "low"⟩
    "low" rfl rfl (by decide)
  exact ⟨rfl, h.1, h.2.1 (by decide)⟩

/-- C4: each bootstrap cap is an inclusive upper bound: a diff meeting a
cap exactly produces no `bootstrap_cap_exceeded` reason for that cap, and
exceeding it by one produces the reason — for all three caps. -/
theorem c4_main (nf nl nd : Int) (diff : DiffSummary) :
    ((diff.files_added : Int) = nf →
      "bootstrap_cap_exceeded:max_files_added" ∉ capReasons ⟨some nf, some nl, some nd⟩ diff) ∧
    ((diff.files_added : Int) = nf + 1 →
      "bootstrap_cap_exceeded:max_files_added" ∈ capReasons ⟨some nf, some nl, some nd⟩ diff) ∧
    (diff.total_loc_added = nl →
      "bootstrap_cap_exceeded:max_total_loc_added" ∉ capReasons ⟨some nf, some nl, some nd⟩ diff) ∧
    (diff.total_loc_added = nl + 1 →
      "bootstrap_cap_exceeded:max_total_loc_added" ∈ capReasons ⟨some nf, some nl, some nd⟩ diff) ∧
    ((diff.new_top_level_dirs : Int) = nd →
      "bootstrap_cap_exceeded:max_new_top_level_dirs" ∉ capReasons ⟨some nf, some nl, some nd⟩ diff) ∧
    ((diff.new_top_level_dirs : Int) = nd + 1 →
      "bootstrap_cap_exceeded:max_new_top_level_dirs" ∈ capReasons ⟨some nf, some nl, some nd⟩ diff) := by
  unfold capReasons jsGtNum
  refine ⟨?_, ?_, ?_, ?_, ?_, ?_⟩ <;> intro h <;>
    simp [mem_if_singleton, List.mem_append, h]

/-- Witness for C4 at caps (5, 100, 2) with diffs sitting exactly at and
one past each cap. -/
theorem c4_main_witness :
    (w4DiffAt.files_added : Int) = 5 ∧ (w4DiffOver.files_added : Int) = 5 + 1 ∧
    ("bootstrap_cap_exceeded:max_files_added" ∉ capReasons w4Caps w4DiffAt) ∧
    ("bootstrap_cap_exceeded:max_files_added" ∈ capReasons w4Caps w4DiffOver) ∧
    ("bootstrap_cap_exceeded:max_total_loc_added" ∉ capReasons w4Caps w4DiffAt) ∧
    ("bootstrap_cap_exceeded:max_total_loc_added" ∈ capReasons w4Caps w4DiffOver) ∧
    ("bootstrap_cap_exceeded:max_new_top_level_dirs" ∉ capReasons w4Caps w4DiffAt) ∧
    ("bootstrap_cap_exceeded:max_new_top_level_dirs" ∈ capReasons w4Caps w4DiffOver) := by
  refine ⟨rfl, rfl, ?_, ?_, ?_, ?_, ?_, ?_⟩
  · exact (c4_main 5 100 2 w4DiffAt).1 rfl
  · exact (c4_main 5 100 2 w4DiffOver).2.1 rfl
  · exact (c4_main 5 100 2 w4DiffAt).2.2.1 rfl
  · exact (c4_main 5 100 2 w4DiffOver).2.2.2.1 rfl
  · exact (c4_main 5 100 2 w4DiffAt).2.2.2.2.1 rfl
  · exact (c4_main 5 100 2 w4DiffOver).2.2.2.2.2 rfl

/-- C10: when the dominant class has no registry entry, or its entry lacks
`min_authority`, the required authority falls back to `"medium"` before
any bootstrap floor: it stays `"medium"` outside bootstrap mode and is
floored to `"high"` in bootstrap mode. -/
theorem c10_main (classesById : List (String × ActionClassDef)) (dominant : Option String)
    (h : dominant.bind (classLookup classesById) = none ∨
         ∃ d, dominant.bind (classLookup classesById) = some d ∧ d.min_authority = none) :
    baseRequired classesById dominant = "medium" ∧
    ∀ mode : Option String,
      requiredAuthority mode classesById dominant =
        (if mode = some "bootstrap" then "high" else "medium") := by
  have hbase : baseRequired classesById dominant = "medium" := by
    unfold baseRequired
    rcases h with h | ⟨d, hd, hm⟩
    · rw [h]
    · simp only [hd, hm]
  refine ⟨hbase, ?_⟩
  intro mode
  unfold requiredAuthority
  rw [hbase]
  by_cases hm : mode = some "bootstrap"
  · rw [if_pos ⟨hm, by decide⟩, if_pos hm]
  · rw [if_neg (fun hand => hm hand.1), if_neg hm]

/-- Witness for C10: the default class `code_change` against an empty
registry, in bootstrap mode. -/
theorem c10_main_witness :
    (some "code_change").bind (classLookup ([] : List (String × ActionClassDef))) = none ∧
    baseRequired ([] : List (String × ActionClassDef)) (some "code_change") = "medium" ∧
    requiredAuthority (some "bootstrap") ([] : List (String × ActionClassDef))
      (some "code_change") = "high" := by
  have h := c10_main ([] : List (String × ActionClassDef)) (some "code_change") (Or.inl rfl)
  refine ⟨rfl, h.1, ?_⟩
  rw [h.2 (some "bootstrap")]
  rfl

/-- C9: a rename line yields exactly one ChangeRecord, keyed by the
destination path with status `R`, and increments `files_modified` only;
line-addition totals are a function of the numstat input alone (a rename
never surfaces as an add/delete pair of records), and `new_top_level_dirs`
counts only first segments of records whose status is `A`, so a rename
never contributes one. -/
theorem c9_main (line : String) (records : List ChangeRecord) (a m d : Nat)
    (hR : jsStartsWith ((parseLine line).getD 0 "") "R" = true) :
    nameStatusStep (records, a, m, d) line =
      (records ++ [⟨normalizeSlashes ((parseLine line).getD 2 ""), "R"⟩], a, m + 1, d) ∧
    (∀ (recs : List ChangeRecord) (p st : String), st ≠ "A" →
      newTopLevelDirsOf (recs ++ [⟨p, st⟩]) = newTopLevelDirsOf recs) ∧
    (∀ ns1 ns2 num : String,
      (computeDiffSummary ns1 num).total_loc_added =
        (computeDiffSummary ns2 num).total_loc_added ∧
      (computeDiffSummary ns1 num).total_loc_deleted =
        (computeDiffSummary ns2 num).total_loc_deleted) := by
  refine ⟨?_, ?_, ?_⟩
  · unfold nameStatusStep
    rw [if_pos hR]
  · intro recs p st hst
    unfold newTopLevelDirsOf
    rw [List.filterMap_append]
    simp [hst]
  · intro ns1 ns2 num
    exact ⟨rfl, rfl⟩

/-- Witness for C9 on the rename line `R100 old/a.txt new/b.txt`. -/
theorem c9_main_witness :
    jsStartsWith ((parseLine "R100\told/a.txt\tnew/b.txt").getD 0 "") "R" = true ∧
    nameStatusStep ([], 0, 0, 0) "R100\told/a.txt\tnew/b.txt" =
      ([⟨"new/b.txt", "R"⟩], 0, 1, 0) ∧
    newTopLevelDirsOf [⟨"new/b.txt", "R"⟩] = 0 := by
  refine ⟨rfl, ?_, rfl⟩
  have h := (c9_main "R100\told/a.txt\tnew/b.txt" [] 0 0 0 rfl).1
  rw [h]
  rfl

/-- C1 (code-bug evidence): a structurally valid declaration whose disallow
list matches the diff makes `runGate` abort with a `ReferenceError` —
`emitFail` reads the `const dominant` binding inside its temporal dead
zone — so no failing Decision is constructed or persisted, contrary to the
claim that every run reaching the diff stage persists a Decision record.
The first two conjuncts show the declaration is structurally valid and the
disallow stage genuinely fires. -/
theorem c1_main :
    minimalIntentValidate c1Intent = [] ∧
    disallowReasons c1Intent c1Diff = ["disallowed_extension:secret/key.txt"] ∧
    runGate c1Intent c1Registry false c1Diff = .error (.referenceError "dominant") :=
  ⟨rfl, rfl, rfl⟩

/-- C6 (counterexample): with `bootstrap_scope.allowed_action_classes`
equal to the empty list the membership check is skipped: the dominant
class `scaffold` is not a member of `[]`, yet the run passes with an empty
reasons list — no `bootstrap_action_class_not_allowed:scaffold` reason is
produced, refuting the claim that the check applies to the empty list. -/
theorem c6_counterexample :
    pickDominant (classifyMatched (c6Registry.action_classes.getD []) c6Diff)
        (c6Registry.action_classes.getD []) = some "scaffold" ∧
    c6Intent.bootstrap_scope = some ⟨some [], some [], some ⟨some 100, some 1000, some 10⟩⟩ ∧
    ("scaffold" ∈ ([] : List String) → False) ∧
    runGate c6Intent c6Registry false c6Diff =
      .ok { run := "2", mode := some "bootstrap",
            dominant_action_class := some "scaffold", required_authority := some "high",
            declared_authority := some "critical", decision := "pass", reasons := [],
            diff_summary := some (summarize c6Diff) } :=
  ⟨rfl, rfl, fun h => by simp at h, rfl⟩

/-- C6 (amended): the bootstrap membership check applies only when
`allowed_action_classes` is non-empty: a non-member dominant class then
produces `bootstrap_action_class_not_allowed:<id>`, while the empty list
disables the check and the reason is never produced. -/
theorem c6_amended (intent : IntentDoc) (dominant : Option String)
    (lock : Bool) (diff : DiffSummary) (bs : BootstrapScope) (caps : Caps)
    (l : List String) (rs : List String)
    (hmode : intent.mode ≠ some "normal")
    (hbs : intent.bootstrap_scope = some bs)
    (hcaps : bs.caps = some caps)
    (hl : bs.allowed_action_classes = some l)
    (hrs : modeReasons intent dominant lock diff = .ok rs) :
    (l ≠ [] → jsIncludesOpt l dominant = false →
      ("bootstrap_action_class_not_allowed:" ++ jsStr dominant) ∈ rs) ∧
    (l = [] → ("bootstrap_action_class_not_allowed:" ++ jsStr dominant) ∉ rs) := by
  unfold modeReasons at hrs
  rw [if_neg hmode] at hrs
  simp only [hbs, hl, hcaps, Except.ok.injEq] at hrs
  subst hrs
  constructor
  · intro hne hinc
    refine List.mem_append.2 (Or.inl (List.mem_append.2 (Or.inr ?_)))
    rw [if_pos ⟨hne, by simp [hinc]⟩]
    simp
  · intro hnil
    subst hnil
    intro hmem
    rcases List.mem_append.1 hmem with hmem | hmem
    · rcases List.mem_append.1 hmem with hmem | hmem
      · rw [mem_if_singleton] at hmem
        exact append_ne_of_take "bootstrap_action_class_not_allowed:" (jsStr dominant)
          "bootstrap_forbidden:bootstrap_lock_exists" (by decide) hmem.2
      · simp at hmem
    · unfold capReasons at hmem
      rcases List.mem_append.1 hmem with hmem | hmem
      · rcases List.mem_append.1 hmem with hmem | hmem
        · rw [mem_if_singleton] at hmem
          exact append_ne_of_take "bootstrap_action_class_not_allowed:" (jsStr dominant)
            "bootstrap_cap_exceeded:max_files_added" (by decide) hmem.2
        · rw [mem_if_singleton] at hmem
          exact append_ne_of_take "bootstrap_action_class_not_allowed:" (jsStr dominant)
            "bootstrap_cap_exceeded:max_total_loc_added" (by decide) hmem.2
      · rw [mem_if_singleton] at hmem
        exact append_ne_of_take "bootstrap_action_class_not_allowed:" (jsStr dominant)
          "bootstrap_cap_exceeded:max_new_top_level_dirs" (by decide) hmem.2

/-- Witness for C6 (amended): dominant `scaffold` against the non-empty
allowed list `[docs_change]`. -/
theorem c6_amended_witness :
    modeReasons w6Intent (some "scaffold") false c6Diff =
      .ok ["bootstrap_action_class_not_allowed:scaffold"] ∧
    ("bootstrap_action_class_not_allowed:" ++ jsStr (some "scaffold")) ∈
      ["bootstrap_action_class_not_allowed:scaffold"] := by
  refine ⟨rfl, ?_⟩
  exact (c6_amended w6Intent (some "scaffold") false c6Diff
    ⟨some [], some ["docs_change"], some ⟨some 100, some 1000, some 10⟩⟩
    ⟨some 100, some 1000, some 10⟩ ["docs_change"]
    ["bootstrap_action_class_not_allowed:scaffold"]
    (by decide) rfl rfl rfl rfl).1 (by simp) rfl

theorem modeReasons_lock_mem (intent : IntentDoc) (dom : Option String)
    (diff : DiffSummary) (bs : BootstrapScope) (caps : Caps)
    (hmode : intent.mode ≠ some "normal")
    (hbs : intent.bootstrap_scope = some bs) (hcp : bs.caps = some caps) :
    ∃ rs, modeReasons intent dom true diff = .ok rs ∧
      "bootstrap_forbidden:bootstrap_lock_exists" ∈ rs ∧ rs ≠ [] := by
  unfold modeReasons
  rw [if_neg hmode]
  simp only [hbs, hcp]
  refine ⟨_, rfl, ?_, ?_⟩
  · refine List.mem_append.2 (Or.inl (List.mem_append.2 (Or.inl ?_)))
    simp
  · simp

/-- C7 (counterexample): a structurally valid bootstrap declaration
evaluated while the lock exists does not always yield a failing Decision
containing `bootstrap_forbidden:bootstrap_lock_exists`: a change-set
hitting the declaration's disallow list short-circuits at step 1, which
throws before any Decision is constructed. -/
theorem c7_counterexample :
    minimalIntentValidate c7Intent = [] ∧
    c7Intent.mode = some "bootstrap" ∧
    runGate c7Intent c6Registry true c7Diff = .error (.referenceError "dominant") :=
  ⟨rfl, rfl, rfl⟩

/-- C7 (amended): every structurally valid bootstrap declaration that
reaches the mode-constraint stage (no disallow or allow-path violations)
while the genesis lock exists yields verdict `fail` with
`bootstrap_forbidden:bootstrap_lock_exists` among its reasons. -/
theorem c7_amended (intent : IntentDoc) (registry : Registry)
    (diff : DiffSummary) (ap : Option (List String))
    (hv : minimalIntentValidate intent = [])
    (hmode : intent.mode = some "bootstrap")
    (h1 : disallowReasons intent diff = [])
    (hap : resolveAllowPaths intent = .ok ap)
    (h2 : allowlistReasons ap diff = []) :
    ∃ dec, runGate intent registry true diff = .ok dec ∧ dec.decision = "fail" ∧
      "bootstrap_forbidden:bootstrap_lock_exists" ∈ dec.reasons := by
  obtain ⟨bs, caps, hbs, hcp, -, -⟩ := validate_bootstrap_shape intent hv hmode
  obtain ⟨rm, hm, hmem, hne⟩ := modeReasons_lock_mem intent
    (pickDominant (classifyMatched (registry.action_classes.getD []) diff)
      (registry.action_classes.getD [])) diff bs caps
    (by rw [hmode]; decide) hbs hcp
  rw [runGate_pipeline intent registry true diff ap rm hv h1 hap h2 hm]
  rw [if_pos (by simp [hne])]
  refine ⟨_, rfl, rfl, ?_⟩
  exact List.mem_append.2 (Or.inr hmem)

/-- Witness for C7 (amended): a clean bootstrap declaration evaluated with
the lock present. -/
theorem c7_amended_witness :
    minimalIntentValidate w7Intent = [] ∧
    (∃ dec, runGate w7Intent c6Registry true c6Diff = .ok dec ∧ dec.decision = "fail" ∧
      "bootstrap_forbidden:bootstrap_lock_exists" ∈ dec.reasons) :=
  ⟨rfl, c7_amended w7Intent c6Registry c6Diff (some []) rfl rfl rfl rfl rfl⟩

/-- C8: the validator evaluates its structural checks independently — each
error code is present iff its own condition fails, whatever the other
fields hold — and any structural error makes the run fail immediately with
exactly those codes as reasons, a null dominant class, null required
authority and null diff summary, the result being independent of the diff
(no diff is computed). -/
theorem c8_main (intent : IntentDoc) (registry : Registry) (lock : Bool)
    (diff diff2 : DiffSummary)
    (h : minimalIntentValidate intent ≠ []) :
    runGate intent registry lock diff =
      .ok { run := "2", mode := intent.mode, dominant_action_class := none,
            required_authority := none, declared_authority := intent.declared_authority,
            decision := "fail", reasons := minimalIntentValidate intent,
            diff_summary := none } ∧
    runGate intent registry lock diff = runGate intent registry lock diff2 ∧
    ("invalid:mode" ∈ minimalIntentValidate intent ↔
      ¬ (intent.mode.getD "" = "bootstrap" ∨ intent.mode.getD "" = "normal")) ∧
    ("invalid:intent" ∈ minimalIntentValidate intent ↔
      (jsTrim (intent.intent.getD "")).length < 3) ∧
    ("invalid:declared_authority" ∈ minimalIntentValidate intent ↔
      ¬ jsToLower (intent.declared_authority.getD "") ∈ AUTH_ORDER) ∧
    ("bootstrap_requires:bootstrap_scope" ∈ minimalIntentValidate intent ↔
      (intent.mode.getD "" = "bootstrap" ∧ intent.bootstrap_scope = none)) ∧
    ("bootstrap_requires:bootstrap_scope.allowed_paths" ∈ minimalIntentValidate intent ↔
      (intent.mode.getD "" = "bootstrap" ∧
       ∃ bs, intent.bootstrap_scope = some bs ∧ bs.allowed_paths = none)) ∧
    ("bootstrap_requires:bootstrap_scope.allowed_action_classes" ∈ minimalIntentValidate intent ↔
      (intent.mode.getD "" = "bootstrap" ∧
       ∃ bs, intent.bootstrap_scope = some bs ∧ bs.allowed_action_classes = none)) ∧
    ("bootstrap_requires:bootstrap_scope.caps" ∈ minimalIntentValidate intent ↔
      (intent.mode.getD "" = "bootstrap" ∧
       ∃ bs, intent.bootstrap_scope = some bs ∧ bs.caps = none)) ∧
    ("bootstrap_caps_requires:max_files_added" ∈ minimalIntentValidate intent ↔
      (intent.mode.getD "" = "bootstrap" ∧
       ∃ bs caps, intent.bootstrap_scope = some bs ∧ bs.caps = some caps ∧
         caps.max_files_added = none)) ∧
    ("bootstrap_caps_requires:max_total_loc_added" ∈ minimalIntentValidate intent ↔
      (intent.mode.getD "" = "bootstrap" ∧
       ∃ bs caps, intent.bootstrap_scope = some bs ∧ bs.caps = some caps ∧
         caps.max_total_loc_added = none)) ∧
    ("bootstrap_caps_requires:max_new_top_level_dirs" ∈ minimalIntentValidate intent ↔
      (intent.mode.getD "" = "bootstrap" ∧
       ∃ bs caps, intent.bootstrap_scope = some bs ∧ bs.caps = some caps ∧
         caps.max_new_top_level_dirs = none)) := by
  have hrun : runGate intent registry lock diff =
      .ok { run := "2", mode := intent.mode, dominant_action_class := none,
            required_authority := none, declared_authority := intent.declared_authority,
            decision := "fail", reasons := minimalIntentValidate intent,
            diff_summary := none } := by
    unfold runGate
    rw [if_pos h]
  have hrun2 : runGate intent registry lock diff2 =
      .ok { run := "2", mode := intent.mode, dominant_action_class := none,
            required_authority := none, declared_authority := intent.declared_authority,
            decision := "fail", reasons := minimalIntentValidate intent,
            diff_summary := none } := by
    unfold runGate
    rw [if_pos h]
  refine ⟨hrun, hrun.trans hrun2.symm, ?_, ?_, ?_, ?_, ?_, ?_, ?_, ?_, ?_, ?_⟩
  · unfold minimalIntentValidate
    rcases hbs : intent.bootstrap_scope with _ | bs
    · by_cases hmode : intent.mode.getD "" = "bootstrap" <;>
        simp [hbs, hmode, mem_if_singleton, mem_if_nil]
    · rcases hcp : bs.caps with _ | caps <;>
        by_cases hmode : intent.mode.getD "" = "bootstrap" <;>
          simp [hbs, hcp, hmode, mem_if_singleton, mem_if_nil]
  · unfold minimalIntentValidate
    rcases hbs : intent.bootstrap_scope with _ | bs
    · by_cases hmode : intent.mode.getD "" = "bootstrap" <;>
        simp [hbs, hmode, mem_if_singleton, mem_if_nil]
    · rcases hcp : bs.caps with _ | caps <;>
        by_cases hmode : intent.mode.getD "" = "bootstrap" <;>
          simp [hbs, hcp, hmode, mem_if_singleton, mem_if_nil]
  · unfold minimalIntentValidate
    rcases hbs : intent.bootstrap_scope with _ | bs
    · by_cases hmode : intent.mode.getD "" = "bootstrap" <;>
        simp [hbs, hmode, mem_if_singleton, mem_if_nil]
    · rcases hcp : bs.caps with _ | caps <;>
        by_cases hmode : intent.mode.getD "" = "bootstrap" <;>
          simp [hbs, hcp, hmode, mem_if_singleton, mem_if_nil]
  · unfold minimalIntentValidate
    rcases hbs : intent.bootstrap_scope with _ | bs
    · by_cases hmode : intent.mode.getD "" = "bootstrap" <;>
        simp [hbs, hmode, mem_if_singleton, mem_if_nil]
    · rcases hcp : bs.caps with _ | caps <;>
        by_cases hmode : intent.mode.getD "" = "bootstrap" <;>
          simp [hbs, hcp, hmode, mem_if_singleton, mem_if_nil]
  · unfold minimalIntentValidate
    rcases hbs : intent.bootstrap_scope with _ | bs
    · by_cases hmode : intent.mode.getD "" = "bootstrap" <;>
        simp [hbs, hmode, mem_if_singleton, mem_if_nil]
    · rcases hcp : bs.caps with _ | caps <;>
        by_cases hmode : intent.mode.getD "" = "bootstrap" <;>
          simp [hbs, hcp, hmode, mem_if_singleton, mem_if_nil]
  · unfold minimalIntentValidate
    rcases hbs : intent.bootstrap_scope with _ | bs
    · by_cases hmode : intent.mode.getD "" = "bootstrap" <;>
        simp [hbs, hmode, mem_if_singleton, mem_if_nil]
    · rcases hcp : bs.caps with _ | caps <;>
        by_cases hmode : intent.mode.getD "" = "bootstrap" <;>
          simp [hbs, hcp, hmode, mem_if_singleton, mem_if_nil]
  · unfold minimalIntentValidate
    rcases hbs : intent.bootstrap_scope with _ | bs
    · by_cases hmode : intent.mode.getD "" = "bootstrap" <;>
        simp [hbs, hmode, mem_if_singleton, mem_if_nil]
    · rcases hcp : bs.caps with _ | caps <;>
        by_cases hmode : intent.mode.getD "" = "bootstrap" <;>
          simp [hbs, hcp, hmode, mem_if_singleton, mem_if_nil]
  · unfold minimalIntentValidate
    rcases hbs : intent.bootstrap_scope with _ | bs
    · by_cases hmode : intent.mode.getD "" = "bootstrap" <;>
        simp [hbs, hmode, mem_if_singleton, mem_if_nil]
    · rcases hcp : bs.caps with _ | caps <;>
        by_cases hmode : intent.mode.getD "" = "bootstrap" <;>
          simp [hbs, hcp, hmode, mem_if_singleton, mem_if_nil]
  · unfold minimalIntentValidate
    rcases hbs : intent.bootstrap_scope with _ | bs
    · by_cases hmode : intent.mode.getD "" = "bootstrap" <;>
        simp [hbs, hmode, mem_if_singleton, mem_if_nil]
    · rcases hcp : bs.caps with _ | caps <;>
        by_cases hmode : intent.mode.getD "" = "bootstrap" <;>
          simp [hbs, hcp, hmode, mem_if_singleton, mem_if_nil]
  · unfold minimalIntentValidate
    rcases hbs : intent.bootstrap_scope with _ | bs
    · by_cases hmode : intent.mode.getD "" = "bootstrap" <;>
        simp [hbs, hmode, mem_if_singleton, mem_if_nil]
    · rcases hcp : bs.caps with _ | caps <;>
        by_cases hmode : intent.mode.getD "" = "bootstrap" <;>
          simp [hbs, hcp, hmode, mem_if_singleton, mem_if_nil]

/-- C5: classification returns exactly the identifiers of the matching
registry rules, defaulting to the single class `code_change` when nothing
matches, and the dominant class is the earliest matched identifier whose
`min_authority` ordinal is highest (`firstDominant`); the final conjunct
shows a concrete equal-authority tie resolving to the entry that appears
first in registry order. -/
theorem c5_main (c : List (String × ActionClassDef)) (diff : DiffSummary) :
    (∀ id : String, id ∈ classifyMatched c diff ↔
      ((∃ d, (id, d) ∈ c ∧ actionClassMatches d diff = true) ∨
       (id = "code_change" ∧ ∀ kv ∈ c, actionClassMatches kv.2 diff = false))) ∧
    pickDominant (classifyMatched c diff) c = firstDominant c (classifyMatched c diff) ∧
    pickDominant (classifyMatched w5Classes w5Diff) w5Classes = some "alpha_change" :=
  ⟨classifyMatched_mem_iff c diff, pickDominant_eq_firstDominant c diff, rfl⟩

/-- Witness for C2: a normal-mode run declaring `low` against a diff whose
dominant class requires `high`. -/
theorem c2_main_witness :
    minimalIntentValidate w2Intent = [] ∧
    (∃ dec, runGate w2Intent w2Registry false w2Diff = .ok dec ∧
      dec.reasons.filter isAuthorityReason =
        ["authority_exceeded:required=high,declared=low"]) := by
  refine ⟨rfl, ?_⟩
  obtain ⟨dec, hdec, hfil⟩ := c2_main w2Intent w2Registry false w2Diff none rfl rfl rfl rfl
  exact ⟨dec, hdec, hfil.trans (by rfl)⟩

/-- Witness for C8: a declaration failing the mode, intent and authority
checks at once. -/
theorem c8_main_witness :
    minimalIntentValidate w8Intent =
      ["invalid:mode", "invalid:intent", "invalid:declared_authority"] ∧
    runGate w8Intent c1Registry false c1Diff =
      .ok { run := "2", mode := some "chaos", dominant_action_class := none,
            required_authority := none, declared_authority := some "ultra",
            decision := "fail",
            reasons := ["invalid:mode", "invalid:intent", "invalid:declared_authority"],
            diff_summary := none } ∧
    runGate w8Intent c1Registry false c1Diff = runGate w8Intent c1Registry false c6Diff := by
  have h := c8_main w8Intent c1Registry false c1Diff c6Diff (by decide)
  exact ⟨rfl, h.1, h.2.1⟩

end ExecutionBoundary




